import Mathlib

set_option maxHeartbeats 1000000
set_option maxRecDepth 10000

/-!
Shallow embedding of the GitHub Copilot OAuth2 device-flow client and the
Copilot content generator of the qwen-code repository
(packages/core/src/github-copilot/githubCopilotOAuth2.ts and the
GitHubCopilotContentGenerator implementing ContentGenerator).

JavaScript strings are modelled as Lean String (or List Char for the byte
level of the SSE decoder), JS numbers holding millisecond timestamps as Int,
and JS truthiness is made explicit at each use site: an absent field is
none, and a present field is additionally tested against the falsy values
of its type (empty string, zero) exactly where the source tests truthiness.
External effects (the file system, fetch, JSON.parse) are passed in as
explicit arguments or oracle values, and each operation returns its result
together with the effects it performed.
-/

/-! ## JavaScript string helper: String.prototype.includes -/

/-- Boolean substring test on character lists: pat occurs inside l. -/
def hasSubstr (pat : List Char) : List Char → Bool
  | [] => pat.isPrefixOf []
  | c :: t => pat.isPrefixOf (c :: t) || hasSubstr pat t

/-- Model of the JavaScript call s.includes(pat). -/
def strContains (s pat : String) : Bool :=
  hasSubstr pat.data s.data

/-! ## Credential record (githubCopilotOAuth2.ts, GitHubCopilotOAuth2Credentials) -/

/-- The on-disk credential record.  access_token is the GitHub OAuth
(primary) token; copilot_token / copilot_expires_at are the cached Copilot
(secondary) token and its expiry in ms, always optional in the source. -/
structure GitHubCopilotOAuth2Credentials where
  access_token : String
  copilot_token : Option String
  copilot_expires_at : Option Int
  created_at : Int
  updated_at : Int
  deriving DecidableEq

/-- Outcome of reading the credential file from disk. -/
inductive FileRead where
  | missing
  | unreadable
  | fileContent (s : String)
  deriving DecidableEq

/-- loadCredentials (githubCopilotOAuth2.ts lines 121-128): fs.readFile then
JSON.parse inside try/catch; every failure (missing file, unreadable file,
JSON.parse throwing on malformed content) is caught and mapped to null.
JSON.parse is the platform's parser, passed in as parseJson, with none
standing for a thrown parse error. -/
def loadCredentials
    (parseJson : String → Option GitHubCopilotOAuth2Credentials) :
    FileRead → Option GitHubCopilotOAuth2Credentials
  | .missing => none
  | .unreadable => none
  | .fileContent s => parseJson s

/-! ## Copilot token exchange (githubCopilotOAuth2.ts, getCopilotToken) -/

/-- Body of the Copilot token endpoint response (GitHubCopilotTokenResponse). -/
structure GitHubCopilotTokenResponse where
  token : String
  expires_at : Int
  refresh_in : Int
  deriving DecidableEq

/-- What the single fetch of getCopilotToken produced: a success body, or a
non-ok HTTP response with status, statusText and body text. -/
inductive CopilotExchangeOutcome where
  | success (resp : GitHubCopilotTokenResponse)
  | httpError (status : Nat) (statusText : String) (bodyText : String)
  deriving DecidableEq

/-- The error message getCopilotToken builds for a non-ok response
(githubCopilotOAuth2.ts lines 219-235), including the status-specific
suffixes for 401 / 403 / 404 and the response text when non-empty. -/
def copilotErrorMessage (status : Nat) (statusText : String)
    (bodyText : String) : String :=
  let m1 := "Failed to get Copilot token: " ++ toString status ++ " " ++ statusText
  let m2 :=
    if status = 401 then
      m1 ++ " - GitHub OAuth token is invalid or expired"
    else if status = 403 then
      m1 ++ " - GitHub account does not have Copilot access or insufficient permissions"
    else if status = 404 then
      m1 ++ " - Copilot API endpoint not found"
    else m1
  if bodyText ≠ "" then m2 ++ " - Response: " ++ bodyText else m2

/-- getCopilotToken: ok response parses to the token body, non-ok throws the
message built above. -/
def getCopilotToken :
    CopilotExchangeOutcome → Except String GitHubCopilotTokenResponse
  | .success r => .ok r
  | .httpError st stx body => .error (copilotErrorMessage st stx body)

/-! ## getValidAccessToken (githubCopilotOAuth2.ts lines 155-206) -/

/-- TOKEN_REFRESH_BUFFER_MS = 30 * 1000. -/
def TOKEN_REFRESH_BUFFER_MS : Int := 30 * 1000

/-- Result of one getValidAccessToken call: the returned token (null = none),
the credential file contents after the call, and how many Copilot token
exchange HTTP calls were made. -/
structure TokenCallResult where
  result : Option String
  store : Option GitHubCopilotOAuth2Credentials
  exchangeCalls : Nat
  deriving DecidableEq

/-- The refresh branch of getValidAccessToken (lines 172-205): one
getCopilotToken call; on success merge the new secondary token (expiry
scaled seconds to ms) into the record, set updated_at, save, return the
token; on a thrown error whose message contains the substring 401, clear
the stored credentials; on any other thrown error leave the store as is;
both error paths return null. -/
def refreshCopilotPath (credentials : GitHubCopilotOAuth2Credentials)
    (now : Int) (exchange : CopilotExchangeOutcome) : TokenCallResult :=
  match getCopilotToken exchange with
  | .ok copilotToken =>
    let updatedCredentials : GitHubCopilotOAuth2Credentials :=
      { credentials with
        copilot_token := some copilotToken.token
        copilot_expires_at := some (copilotToken.expires_at * 1000)
        updated_at := now }
    { result := some copilotToken.token
      store := some updatedCredentials
      exchangeCalls := 1 }
  | .error msg =>
    if strContains msg "401" then
      { result := none, store := none, exchangeCalls := 1 }
    else
      { result := none, store := some credentials, exchangeCalls := 1 }

/-- getValidAccessToken: load the stored record (given here as the loaded
value); return null when there is no truthy access_token; return the cached
copilot_token with no network call when copilot_token and copilot_expires_at
are truthy and the expiry is more than TOKEN_REFRESH_BUFFER_MS past now;
otherwise run the refresh branch. -/
def getValidAccessToken (stored : Option GitHubCopilotOAuth2Credentials)
    (now : Int) (exchange : CopilotExchangeOutcome) : TokenCallResult :=
  match stored with
  | none => { result := none, store := none, exchangeCalls := 0 }
  | some credentials =>
    if credentials.access_token = "" then
      { result := none, store := some credentials, exchangeCalls := 0 }
    else
      match credentials.copilot_token, credentials.copilot_expires_at with
      | some t, some e =>
        if t ≠ "" ∧ e ≠ 0 ∧ e > now + TOKEN_REFRESH_BUFFER_MS then
          { result := some t, store := some credentials, exchangeCalls := 0 }
        else
          refreshCopilotPath credentials now exchange
      | _, _ => refreshCopilotPath credentials now exchange

example :
    getValidAccessToken
      (some { access_token := "gh", copilot_token := some "cop",
              copilot_expires_at := some 100000, created_at := 1, updated_at := 1 })
      0 (.success { token := "x", expires_at := 0, refresh_in := 0 }) =
    { result := some "cop",
      store := some { access_token := "gh", copilot_token := some "cop",
                      copilot_expires_at := some 100000, created_at := 1,
                      updated_at := 1 },
      exchangeCalls := 0 } := by decide

example :
    getValidAccessToken
      (some { access_token := "gh", copilot_token := none,
              copilot_expires_at := none, created_at := 5, updated_at := 5 })
      100 (.success { token := "new", expires_at := 2000, refresh_in := 60 }) =
    { result := some "new",
      store := some { access_token := "gh", copilot_token := some "new",
                      copilot_expires_at := some 2000000, created_at := 5,
                      updated_at := 100 },
      exchangeCalls := 1 } := by decide

example :
    getValidAccessToken
      (some { access_token := "gh", copilot_token := none,
              copilot_expires_at := none, created_at := 0, updated_at := 0 })
      0 (.httpError 403 "Forbidden" "see 401") =
    { result := none, store := none, exchangeCalls := 1 } := by decide

/-! ## Device authorization (githubCopilotOAuth2.ts, startDeviceAuthorization) -/

/-- Model of the JavaScript expression x or-else d on an optional number
field: the default replaces an absent value and the falsy value 0. -/
def jsOrInt (v : Option Int) (d : Int) : Int :=
  match v with
  | some x => if x = 0 then d else x
  | none => d

/-- Parsed JSON body of the device-code endpoint (GitHubDeviceCodeResponse).
The interval field is optional on the wire, and 0 is falsy. -/
structure GitHubDeviceCodeResponse where
  device_code : String
  user_code : String
  verification_uri : String
  expires_in : Int
  interval : Option Int
  deriving DecidableEq

/-- The device authorization the client returns. -/
structure GitHubCopilotDeviceAuthorization where
  device_code : String
  user_code : String
  verification_uri : String
  interval : Int
  expires_in : Int
  deriving DecidableEq

/-- startDeviceAuthorization (githubCopilotOAuth2.ts lines 241-267): a non-ok
response throws; an ok response is copied field by field, with
interval := data.interval or-else 5 and expires_in passed through. -/
def startDeviceAuthorization (ok : Bool) (status : Nat) (statusText : String)
    (data : GitHubDeviceCodeResponse) :
    Except String GitHubCopilotDeviceAuthorization :=
  if !ok then
    .error ("Failed to start device authorization: " ++ toString status ++ " "
      ++ statusText)
  else
    .ok { device_code := data.device_code
          user_code := data.user_code
          verification_uri := data.verification_uri
          interval := jsOrInt data.interval 5
          expires_in := data.expires_in }

/-! ## Device flow polling loop (performGitHubCopilotOAuthFlow, lines 396-540) -/

/-- The three values pollForAccessToken can resolve to. -/
inductive PollOutcome where
  | complete
  | pending
  | failed
  deriving DecidableEq

/-- One poll attempt either resolves to a PollOutcome or throws an error
with a message (caught by the loop's try/catch). -/
inductive PollStep where
  | result (r : PollOutcome)
  | throwsErr (msg : String)
  deriving DecidableEq

/-- The terminal states of performGitHubCopilotOAuthFlow, from its declared
return type.  The cancelled member is declared in the source signature and
handled by the caller getGitHubCopilotOAuthClient, but no statement of the
function body ever produces it. -/
inductive FlowResult where
  | complete
  | timeout
  | cancelled
  | rate_limited
  | failed
  deriving DecidableEq

/-- The resources performGitHubCopilotOAuthFlow owns while running: the
once-subscription to the AuthCancel event and the armed deadline timer. -/
structure FlowSession where
  cancelListenerAttached : Bool
  timeoutArmed : Bool
  deriving DecidableEq

/-- cleanup (lines 403-408): unsubscribe the cancel handler and clear the
deadline timer. -/
def flowCleanup (_s : FlowSession) : FlowSession :=
  { cancelListenerAttached := false, timeoutArmed := false }

/-- cancelHandler (lines 412-414): the entire body of the AuthCancel handler
is a call to cleanup.  It sets no flag the polling loop reads and does not
make the flow return. -/
def cancelHandler (s : FlowSession) : FlowSession :=
  flowCleanup s

/-- The while loop of lines 470-522, with remaining = maxAttempts - attempts.
Each iteration performs exactly one pollForAccessToken HTTP call (counted in
the second component).  complete / failed return immediately; a thrown error
returns rate_limited when its message contains a rate-limit phrase and
failed otherwise; pending sleeps one interval and continues.  Exhausting the
attempt budget falls through to the timeout return of lines 524-531.  The
loop reads no cancellation state. -/
def pollLoop (polls : Nat → PollStep) : Nat → Nat → FlowResult × Nat
  | _, 0 => (.timeout, 0)
  | attempts, remaining + 1 =>
    match polls attempts with
    | .result .complete => (.complete, 1)
    | .result .failed => (.failed, 1)
    | .result .pending =>
      let r := pollLoop polls (attempts + 1) remaining
      (r.1, r.2 + 1)
    | .throwsErr msg =>
      if strContains msg "rate limit" || strContains msg "too many requests" then
        (.rate_limited, 1)
      else
        (.failed, 1)

/-- Lines 455-468: timeoutMs := expires_in * 1000, pollInterval :=
interval * 1000, maxAttempts := Math.floor(timeoutMs / pollInterval), then
the polling loop starting at attempts = 0.  The returned pair is the flow's
terminal state and the number of poll HTTP calls performed. -/
def performOAuthPolling (polls : Nat → PollStep) (interval expires_in : Nat) :
    FlowResult × Nat :=
  let timeoutMs := expires_in * 1000
  let pollIntervalMs := interval * 1000
  let maxAttempts := timeoutMs / pollIntervalMs
  pollLoop polls 0 maxAttempts

example :
    performOAuthPolling (fun _ => .result .pending) 5 20 =
      (FlowResult.timeout, 4) := by decide

example :
    performOAuthPolling (fun k => if k = 2 then .result .complete else .result .pending)
      5 20 = (FlowResult.complete, 3) := by decide

/-! ## Message conversion (githubCopilotOAuth2.ts concatenated generator,
convertToOpenAIMessages, lines 877-938) -/

/-- One element of a turn's parts array: a bare string, or an object which
may carry a text field and an inlineData field (inlineData modelled by its
mimeType). -/
inductive GeminiPart where
  | strPart (s : String)
  | objPart (text : Option String) (inlineData : Option String)
  deriving DecidableEq

/-- The placeholder rendered for an inlineData part, and the empty string
when neither field applies. -/
def inlineText : Option String → String
  | some mime => "[Image data: " ++ mime ++ "]"
  | none => ""

/-- The inner mapper of the parts array: a string part passes through; an
object part yields its text when that is truthy, else the inlineData
placeholder when inlineData is present, else the empty string. -/
def partToText : GeminiPart → String
  | .strPart s => s
  | .objPart t d =>
    match t with
    | some s => if s ≠ "" then s else inlineText d
    | none => inlineText d

/-- One element of the contents array: a bare string, an object with role
and parts, or any other object (which the source ignores). -/
inductive GeminiContent where
  | strContent (s : String)
  | turn (role : String) (parts : List GeminiPart)
  | other
  deriving DecidableEq

/-- A chat message sent to the Copilot chat-completions endpoint. -/
structure OpenAIMessage where
  role : String
  content : String
  deriving DecidableEq

/-- Model of String.prototype.trim: drop whitespace characters from both
ends (defined over the character list so that it evaluates by decide). -/
def jsTrim (s : String) : String :=
  String.mk (((s.data.dropWhile Char.isWhitespace).reverse.dropWhile
    Char.isWhitespace).reverse)

/-- parts.map(partToText).join(''). -/
def flattenParts (parts : List GeminiPart) : String :=
  String.join (parts.map partToText)

/-- convertToOpenAIMessages on an array of contents: a bare string is pushed
as a user message with no blank check; a role/parts object flattens its
parts, maps the role (user stays user, anything else becomes assistant) and
is pushed only when the flattened text trims non-empty; other objects are
skipped. -/
def convertToOpenAIMessages : List GeminiContent → List OpenAIMessage
  | [] => []
  | c :: rest =>
    (match c with
     | .strContent s => [{ role := "user", content := s }]
     | .turn role parts =>
       let r := if role = "user" then "user" else "assistant"
       let text := flattenParts parts
       if jsTrim text ≠ "" then [{ role := r, content := text }] else []
     | .other => []) ++ convertToOpenAIMessages rest

example :
    convertToOpenAIMessages
      [.turn "user" [.objPart (some "hi") none],
       .turn "model" [.objPart (some " ") none],
       .strContent " "] =
    [{ role := "user", content := "hi" }, { role := "user", content := " " }] := by
  decide

/-! ## Request body construction (generateContent lines 744-752 and
generateContentStream lines 784-792) -/

/-- Model of the JavaScript expression x or-else d on an optional numeric
sampling knob: the default replaces an absent value and the falsy value 0.
Sampling values are modelled as exact rationals. -/
def jsOrRat (v : Option Rat) (d : Rat) : Rat :=
  match v with
  | some x => if x = 0 then d else x
  | none => d

/-- The sampling knobs of request.config, each possibly unset. -/
structure GenerationConfig where
  maxOutputTokens : Option Rat
  temperature : Option Rat
  topP : Option Rat
  deriving DecidableEq

/-- The chat-completions request body the generator builds. -/
structure ChatCompletionRequestBody where
  model : String
  messages : List OpenAIMessage
  max_tokens : Rat
  temperature : Rat
  top_p : Rat
  stream : Bool
  deriving DecidableEq

/-- The request body of generateContent / generateContentStream: model
(falling back to gpt-4 when the field is empty), the converted messages,
max_tokens := request.config?.maxOutputTokens or-else 4096, temperature :=
request.config?.temperature or-else 0.7, top_p := request.config?.topP
or-else 1.0, and the stream flag. -/
def buildRequestBody (modelName : String) (contents : List GeminiContent)
    (config : Option GenerationConfig) (stream : Bool) :
    ChatCompletionRequestBody :=
  { model := if modelName = "" then "gpt-4" else modelName
    messages := convertToOpenAIMessages contents
    max_tokens := jsOrRat (config.bind (·.maxOutputTokens)) 4096
    temperature := jsOrRat (config.bind (·.temperature)) (7 / 10)
    top_p := jsOrRat (config.bind (·.topP)) 1
    stream := stream }

example :
    (buildRequestBody "gpt-4" []
      (some { maxOutputTokens := some 100, temperature := some 0, topP := none })
      false).temperature = 7 / 10 := by
  simp [buildRequestBody, jsOrRat]

/-! ## Stream chunk conversion (convertStreamToGeminiResponse, lines 977-1006) -/

/-- The delta of one streaming choice. -/
structure StreamDelta where
  role : Option String
  content : Option String
  deriving DecidableEq

/-- One choice of a streaming chunk. -/
structure StreamChoice where
  index : Nat
  delta : StreamDelta
  finish_reason : Option String
  deriving DecidableEq

/-- A parsed chat-completions streaming chunk (GitHubCopilotStreamResponse). -/
structure GitHubCopilotStreamResponse where
  id : String
  model : String
  choices : List StreamChoice
  deriving DecidableEq

/-- The generic finish reasons the generator maps onto. -/
inductive GeminiFinishReason where
  | stop
  | maxTokens
  | safety
  | unspecified
  deriving DecidableEq

/-- mapFinishReason (lines 1008-1019). -/
def mapFinishReason : String → GeminiFinishReason
  | "stop" => .stop
  | "length" => .maxTokens
  | "content_filter" => .safety
  | _ => .unspecified

/-- One candidate of a generic response (parts reduced to their text). -/
structure GeminiCandidate where
  parts : List String
  role : String
  finishReason : Option GeminiFinishReason
  index : Nat
  deriving DecidableEq

/-- The generic response produced for one stream chunk. -/
structure GeminiStreamResponse where
  candidates : List GeminiCandidate
  responseId : String
  modelVersion : String
  deriving DecidableEq

/-- convertStreamToGeminiResponse: null when there is no first choice or its
delta carries no truthy content; otherwise one model candidate holding the
delta text, the mapped finish reason when finish_reason is truthy, and the
chunk's id and model copied over. -/
def convertStreamToGeminiResponse (r : GitHubCopilotStreamResponse) :
    Option GeminiStreamResponse :=
  match r.choices.head? with
  | none => none
  | some choice =>
    match choice.delta.content with
    | none => none
    | some c =>
      if c = "" then none
      else
        some { candidates :=
                 [{ parts := [c]
                    role := "model"
                    finishReason :=
                      match choice.finish_reason with
                      | some fr => if fr = "" then none else some (mapFinishReason fr)
                      | none => none
                    index := choice.index }]
               responseId := r.id
               modelVersion := r.model }

/-! ## SSE stream decoding (streamGenerator, lines 815-858)

The byte stream is modelled at the character level: each read delivers a
List Char, and the carry-over buffer is a List Char.  JSON.parse of a frame
payload is the platform's parser, passed in as the parse argument, with
none standing for a thrown parse error (the source logs a warning and skips
such frames). -/

/-- split('\n') on character lists: JavaScript String.prototype.split with a
one-character separator, which always yields at least one (possibly empty)
piece. -/
def splitLines : List Char → List (List Char)
  | [] => [[]]
  | c :: rest =>
    match splitLines rest with
    | [] => [[]]
    | h :: t => if c = '\n' then [] :: h :: t else (c :: h) :: t

/-- The line prefix introducing an SSE data frame. -/
def sseDataMark : List Char := "data: ".data

/-- The stream-termination sentinel payload. -/
def sseDoneMark : List Char := "[DONE]".data

/-- line.trim() === '' over character lists. -/
def sseBlank (line : List Char) : Bool :=
  line.all fun c => c.isWhitespace

/-- The inner for-loop over the complete lines of one read (lines 831-849):
blank lines are skipped; a line starting with the data prefix has its
payload extracted; the [DONE] payload returns from the generator at once
(true in the second component); any other payload is JSON-parsed, converted,
and yielded when the conversion is non-null; parse failures are skipped. -/
def processStreamLines
    (parse : List Char → Option GitHubCopilotStreamResponse) :
    List (List Char) → List GeminiStreamResponse →
    List GeminiStreamResponse × Bool
  | [], acc => (acc, false)
  | line :: rest, acc =>
    if sseBlank line then processStreamLines parse rest acc
    else if sseDataMark.isPrefixOf line then
      let payload := line.drop 6
      if payload = sseDoneMark then (acc, true)
      else
        match parse payload with
        | some chunk =>
          match convertStreamToGeminiResponse chunk with
          | some g => processStreamLines parse rest (acc ++ [g])
          | none => processStreamLines parse rest acc
        | none => processStreamLines parse rest acc
    else processStreamLines parse rest acc

/-- The reader loop of streamGenerator (lines 823-850): append the read to
the carry-over buffer, split on newlines, hold back the final fragment as
the new buffer, process the complete lines; a [DONE] seen there ends the
generator immediately (later reads are never requested); exhausting the
reads ends it with false.  Either way the finally block releases the
reader, so the returned list-and-flag is the full yield sequence, with the
flag recording termination by the [DONE] sentinel. -/
def streamGenerator (parse : List Char → Option GitHubCopilotStreamResponse) :
    List (List Char) → List Char → List GeminiStreamResponse →
    List GeminiStreamResponse × Bool
  | [], _, acc => (acc, false)
  | readChunk :: rest, buffer, acc =>
    let lines := splitLines (buffer ++ readChunk)
    let buffer' := lines.getLast?.getD []
    match processStreamLines parse lines.dropLast acc with
    | (acc', true) => (acc', true)
    | (acc', false) => streamGenerator parse rest buffer' acc'

/-! ### Payload collection: the parse-free skeleton of the decoder -/

/-- The payloads the inner loop hands to JSON.parse, in order, and whether
it hit the [DONE] sentinel. -/
def collectStreamLines : List (List Char) → List (List Char) × Bool
  | [] => ([], false)
  | line :: rest =>
    if sseBlank line then collectStreamLines rest
    else if sseDataMark.isPrefixOf line then
      let payload := line.drop 6
      if payload = sseDoneMark then ([], true)
      else
        match collectStreamLines rest with
        | (ps, d) => (payload :: ps, d)
    else collectStreamLines rest

/-- The payloads the reader loop hands to JSON.parse across reads, and
whether it terminated on the [DONE] sentinel. -/
def collectPayloads : List (List Char) → List Char → List (List Char) × Bool
  | [], _ => ([], false)
  | readChunk :: rest, buffer =>
    let lines := splitLines (buffer ++ readChunk)
    let buffer' := lines.getLast?.getD []
    match collectStreamLines lines.dropLast with
    | (ps, true) => (ps, true)
    | (ps, false) =>
      match collectPayloads rest buffer' with
      | (ps2, d) => (ps ++ ps2, d)

/-! ### Concrete SSE fixture for the stream-decode scenario -/

/-- The JSON payload of the single data frame of the scenario; its braces
are written as character escapes. -/
def ssePayloadStr : String :=
  "\x7b\"id\":\"x\",\"model\":\"m\",\"choices\":[\x7b\"delta\":\x7b\"content\":\"hi\"\x7d\x7d]\x7d"

/-- The payload as a character list. -/
def ssePayload : List Char := ssePayloadStr.data

/-- The full byte sequence of the scenario: one data frame, a blank line,
the [DONE] frame and its trailing blank line. -/
def sseInput : List Char :=
  ("data: " ++ ssePayloadStr ++ "\n\ndata: [DONE]\n\n").data

/-- The chunk JSON.parse produces for ssePayload. -/
def sseChunkHi : GitHubCopilotStreamResponse :=
  { id := "x"
    model := "m"
    choices := [{ index := 0
                  delta := { role := none, content := some "hi" }
                  finish_reason := none }] }

/-- The single generic chunk the scenario yields. -/
def sseRespHi : GeminiStreamResponse :=
  { candidates := [{ parts := ["hi"]
                     role := "model"
                     finishReason := none
                     index := 0 }]
    responseId := "x"
    modelVersion := "m" }

/-- A concrete parse oracle agreeing with JSON.parse on the scenario's
payload. -/
def sseParseFixture (s : List Char) : Option GitHubCopilotStreamResponse :=
  if s = ssePayload then some sseChunkHi else none

example : convertStreamToGeminiResponse sseChunkHi = some sseRespHi := by decide

example :
    streamGenerator sseParseFixture [sseInput.take 10, sseInput.drop 10] [] [] =
      ([sseRespHi], true) := by decide

example :
    collectPayloads [sseInput.take 30, sseInput.drop 30] [] =
      ([ssePayload], true) := by decide

/-! ## Helper lemmas -/

theorem isPrefixOf_extend (pat l b : List Char) (h : pat.isPrefixOf l = true) :
    pat.isPrefixOf (l ++ b) = true := by
  rw [List.isPrefixOf_iff_prefix] at h ⊢
  exact h.trans (l.prefix_append b)

theorem hasSubstr_append_right (pat a b : List Char)
    (h : hasSubstr pat a = true) : hasSubstr pat (a ++ b) = true := by
  induction a with
  | nil =>
    simp only [hasSubstr, List.isPrefixOf] at h
    cases pat with
    | nil =>
      cases b with
      | nil => simp [hasSubstr, List.isPrefixOf]
      | cons c t => simp [hasSubstr, List.isPrefixOf]
    | cons p ps => simp at h
  | cons c t ih =>
    simp only [hasSubstr, Bool.or_eq_true] at h
    rcases h with h | h
    · simp only [List.cons_append, hasSubstr, Bool.or_eq_true]
      exact Or.inl (isPrefixOf_extend pat (c :: t) b h)
    · simp only [List.cons_append, hasSubstr, Bool.or_eq_true]
      exact Or.inr (ih h)

theorem strContains_append_right (a b pat : String)
    (h : strContains a pat = true) : strContains (a ++ b) pat = true := by
  unfold strContains at h ⊢
  rw [String.data_append]
  exact hasSubstr_append_right pat.data a.data b.data h

/-- Every error message getCopilotToken builds for an HTTP 401 response
contains the substring 401, whatever the statusText and body text are. -/
theorem copilotErrorMessage_401_contains (stx body : String) :
    strContains (copilotErrorMessage 401 stx body) "401" = true := by
  unfold copilotErrorMessage
  simp only [if_pos rfl]
  have h1 : strContains ("Failed to get Copilot token: " ++ toString 401 ++ " ")
      "401" = true := by decide
  have h2 := strContains_append_right _ stx _ h1
  have h3 : ("Failed to get Copilot token: " ++ toString 401 ++ " " ++ stx) =
      ("Failed to get Copilot token: " ++ toString 401 ++ " ") ++ stx := by
    simp [String.append_assoc]
  rw [h3]
  by_cases hb : body ≠ ""
  · simp only [if_pos hb]
    exact strContains_append_right _ _ _ (strContains_append_right _ _ _ h2)
  · simp only [if_neg hb]
    exact strContains_append_right _ _ _ h2

/-! ### Poll loop lemmas -/

theorem pollLoop_calls_le (polls : Nat → PollStep) (attempts remaining : Nat) :
    (pollLoop polls attempts remaining).2 ≤ remaining := by
  induction remaining generalizing attempts with
  | zero => simp [pollLoop]
  | succ n ih =>
    simp only [pollLoop]
    cases polls attempts with
    | result r =>
      cases r with
      | complete => simp
      | failed => simp
      | pending => simpa using Nat.add_le_add_right (ih (attempts + 1)) 1
    | throwsErr msg =>
      by_cases h : strContains msg "rate limit" || strContains msg "too many requests"
      <;> simp [h]

theorem pollLoop_all_pending (polls : Nat → PollStep)
    (hp : ∀ k, polls k = .result .pending) (attempts remaining : Nat) :
    pollLoop polls attempts remaining = (.timeout, remaining) := by
  induction remaining generalizing attempts with
  | zero => simp [pollLoop]
  | succ n ih => simp [pollLoop, hp attempts, ih (attempts + 1)]

theorem pollLoop_ne_cancelled (polls : Nat → PollStep)
    (attempts remaining : Nat) :
    (pollLoop polls attempts remaining).1 ≠ FlowResult.cancelled := by
  induction remaining generalizing attempts with
  | zero => simp [pollLoop]
  | succ n ih =>
    simp only [pollLoop]
    cases polls attempts with
    | result r =>
      cases r with
      | complete => simp
      | failed => simp
      | pending => simpa using ih (attempts + 1)
    | throwsErr msg =>
      by_cases h : strContains msg "rate limit" || strContains msg "too many requests"
      <;> simp [h]

theorem performOAuthPolling_maxAttempts (interval expires_in : Nat)
    (polls : Nat → PollStep) :
    performOAuthPolling polls interval expires_in =
      pollLoop polls 0 (expires_in / interval) := by
  show pollLoop polls 0 (expires_in * 1000 / (interval * 1000)) = _
  rw [Nat.mul_div_mul_right expires_in interval (by norm_num : 0 < 1000)]

/-! ### Stream decoder bridge lemmas -/

/-- The result of JSON-parsing and converting one payload. -/
def decodePayload (parse : List Char → Option GitHubCopilotStreamResponse)
    (p : List Char) : Option GeminiStreamResponse :=
  (parse p).bind convertStreamToGeminiResponse

theorem processStreamLines_eq_collect
    (parse : List Char → Option GitHubCopilotStreamResponse)
    (lines : List (List Char)) (acc : List GeminiStreamResponse) :
    processStreamLines parse lines acc =
      (acc ++ (collectStreamLines lines).1.filterMap (decodePayload parse),
       (collectStreamLines lines).2) := by
  induction lines generalizing acc with
  | nil => simp [processStreamLines, collectStreamLines]
  | cons line rest ih =>
    by_cases hb : sseBlank line
    · simp [processStreamLines, collectStreamLines, hb, ih]
    · by_cases hp : sseDataMark.isPrefixOf line
      · by_cases hd : line.drop 6 = sseDoneMark
        · simp [processStreamLines, collectStreamLines, hb, hp, hd]
        · cases hq : parse (line.drop 6) with
          | none =>
            simp [processStreamLines, collectStreamLines, hb, hp, hd, ih,
              decodePayload, hq]
          | some chunk =>
            cases hc : convertStreamToGeminiResponse chunk with
            | none =>
              simp [processStreamLines, collectStreamLines, hb, hp, hd, ih,
                decodePayload, hq, hc]
            | some g =>
              simp [processStreamLines, collectStreamLines, hb, hp, hd, ih,
                decodePayload, hq, hc]
      · simp [processStreamLines, collectStreamLines, hb, hp, ih]

theorem streamGenerator_eq_collect
    (parse : List Char → Option GitHubCopilotStreamResponse)
    (reads : List (List Char)) (buffer : List Char)
    (acc : List GeminiStreamResponse) :
    streamGenerator parse reads buffer acc =
      (acc ++ (collectPayloads reads buffer).1.filterMap (decodePayload parse),
       (collectPayloads reads buffer).2) := by
  induction reads generalizing buffer acc with
  | nil => simp [streamGenerator, collectPayloads]
  | cons readChunk rest ih =>
    simp only [streamGenerator, collectPayloads]
    rw [processStreamLines_eq_collect]
    cases hcl : collectStreamLines (splitLines (buffer ++ readChunk)).dropLast with
    | mk ps d =>
      cases d with
      | true => simp
      | false =>
        simp only
        rw [ih]
        cases hrest : collectPayloads rest ((splitLines (buffer ++ readChunk)).getLast?.getD []) with
        | mk ps2 d2 => simp [List.filterMap_append, List.append_assoc]

/-- Once the payload collector has hit the [DONE] sentinel, appending more
reads changes nothing: they are never requested. -/
theorem collectPayloads_append_of_done (reads extra : List (List Char))
    (buffer : List Char) (h : (collectPayloads reads buffer).2 = true) :
    collectPayloads (reads ++ extra) buffer = collectPayloads reads buffer := by
  induction reads generalizing buffer with
  | nil => simp [collectPayloads] at h
  | cons readChunk rest ih =>
    simp only [List.cons_append, collectPayloads] at h ⊢
    cases hcl : collectStreamLines (splitLines (buffer ++ readChunk)).dropLast with
    | mk ps d =>
      cases d with
      | true => simp [hcl]
      | false =>
        simp only [hcl] at h ⊢
        cases hrest : collectPayloads rest ((splitLines (buffer ++ readChunk)).getLast?.getD []) with
        | mk ps2 d2 =>
          simp only [hrest] at h ⊢
          cases d2 with
          | true =>
            have hih := ih ((splitLines (buffer ++ readChunk)).getLast?.getD [])
              (by rw [hrest])
            simp only [List.append_eq]
            rw [hih, hrest]
          | false => simp at h

/-- For every split offset, feeding the scenario's bytes as two reads makes
the collector hand exactly the one JSON payload to the parser and stop on
the [DONE] sentinel. -/
theorem collectPayloads_sseInput_split (k : Nat) (hk : k ≤ sseInput.length) :
    collectPayloads [sseInput.take k, sseInput.drop k] [] =
      ([ssePayload], true) := by
  have h : ∀ j < sseInput.length + 1,
      collectPayloads [sseInput.take j, sseInput.drop j] [] =
        ([ssePayload], true) := by decide
  exact h k (Nat.lt_succ_of_le hk)

/-- When the access token is truthy but the cached secondary token is absent
or its recorded expiry is not beyond the refresh buffer, getValidAccessToken
takes the refresh branch. -/
theorem getValidAccessToken_stale (c : GitHubCopilotOAuth2Credentials)
    (now : Int) (exchange : CopilotExchangeOutcome)
    (ha : c.access_token ≠ "")
    (hstale : c.copilot_token = none ∨
      ∃ e, c.copilot_expires_at = some e ∧ e ≤ now + TOKEN_REFRESH_BUFFER_MS) :
    getValidAccessToken (some c) now exchange =
      refreshCopilotPath c now exchange := by
  rcases h1 : c.copilot_token with _ | t
  · rcases h2 : c.copilot_expires_at with _ | e
    · simp [getValidAccessToken, ha, h1, h2]
    · simp [getValidAccessToken, ha, h1, h2]
  · rcases h2 : c.copilot_expires_at with _ | e
    · simp [getValidAccessToken, ha, h1, h2]
    · rcases hstale with h | ⟨e', he', hle⟩
      · rw [h1] at h
        exact absurd h (by simp)
      · rw [h2] at he'
        injection he' with he'
        subst he'
        have hcond : ¬(t ≠ "" ∧ e ≠ 0 ∧ e > now + TOKEN_REFRESH_BUFFER_MS) := by
          intro hc
          exact absurd hc.2.2 (not_lt.mpr hle)
        simp [getValidAccessToken, ha, h1, h2, if_neg hcond]

/-- Claim C8: for every on-disk state of the credential file (missing file,
unreadable file, or content on which JSON.parse throws), loadCredentials
returns null; the try/catch makes the operation total, so it never throws. -/
theorem claim_C8_load_failure_returns_null
    (parseJson : String → Option GitHubCopilotOAuth2Credentials)
    (fs : FileRead)
    (h : fs = .missing ∨ fs = .unreadable ∨
      ∃ s, fs = .fileContent s ∧ parseJson s = none) :
    loadCredentials parseJson fs = none := by
  rcases h with h | h | ⟨s, hs, hp⟩
  · subst h; rfl
  · subst h; rfl
  · subst hs; exact hp

theorem claim_C8_witness :
    loadCredentials (fun _ => none) (.fileContent "not json") = none :=
  claim_C8_load_failure_returns_null (fun _ => none) (.fileContent "not json")
    (Or.inr (Or.inr ⟨"not json", rfl, rfl⟩))

/-- Claim C10: on a success HTTP status, the device authorization carries the
backend's interval whenever that is a non-zero number, and the default 5
when the interval is omitted or reported as 0. -/
theorem claim_C10_interval_default (ok : Bool) (status : Nat)
    (statusText : String) (data : GitHubDeviceCodeResponse)
    (hok : ok = true) :
    ((data.interval = none ∨ data.interval = some 0) →
      startDeviceAuthorization ok status statusText data =
        .ok { device_code := data.device_code
              user_code := data.user_code
              verification_uri := data.verification_uri
              interval := 5
              expires_in := data.expires_in }) ∧
    (∀ n, data.interval = some n → n ≠ 0 →
      startDeviceAuthorization ok status statusText data =
        .ok { device_code := data.device_code
              user_code := data.user_code
              verification_uri := data.verification_uri
              interval := n
              expires_in := data.expires_in }) := by
  subst hok
  constructor
  · intro h
    rcases h with h | h <;> simp [startDeviceAuthorization, jsOrInt, h]
  · intro n hn hnz
    simp [startDeviceAuthorization, jsOrInt, hn, hnz]

theorem claim_C10_witness :
    startDeviceAuthorization true 200 "OK"
      { device_code := "dc", user_code := "uc", verification_uri := "vu",
        expires_in := 900, interval := none } =
      .ok { device_code := "dc", user_code := "uc", verification_uri := "vu",
            interval := 5, expires_in := 900 } :=
  (claim_C10_interval_default true 200 "OK"
    { device_code := "dc", user_code := "uc", verification_uri := "vu",
      expires_in := 900, interval := none } rfl).1 (Or.inl rfl)

/-- Claim C3: a stored record with a truthy primary token and a cached
secondary token whose recorded expiry lies more than the 30 second refresh
buffer past now makes getValidAccessToken return the cached secondary token
with the store untouched and zero exchange HTTP calls, whatever the network
would have answered. -/
theorem claim_C3_cached_secondary_fast_path
    (c : GitHubCopilotOAuth2Credentials) (now : Int) (t : String) (e : Int)
    (exchange : CopilotExchangeOutcome)
    (ha : c.access_token ≠ "") (ht : c.copilot_token = some t)
    (htne : t ≠ "") (he : c.copilot_expires_at = some e) (hnow : 0 ≤ now)
    (hfresh : now + TOKEN_REFRESH_BUFFER_MS < e) :
    getValidAccessToken (some c) now exchange =
      { result := some t, store := some c, exchangeCalls := 0 } := by
  have hb : TOKEN_REFRESH_BUFFER_MS = 30000 := rfl
  have hez : e ≠ 0 := by omega
  simp [getValidAccessToken, ha, ht, he]
  intro h
  exact absurd (h htne hez) (not_le.mpr hfresh)

theorem claim_C3_witness :
    getValidAccessToken
      (some { access_token := "gh", copilot_token := some "cop",
              copilot_expires_at := some 100000, created_at := 1,
              updated_at := 1 })
      0 (.httpError 500 "Internal Server Error" "") =
      { result := some "cop",
        store := some { access_token := "gh", copilot_token := some "cop",
                        copilot_expires_at := some 100000, created_at := 1,
                        updated_at := 1 },
        exchangeCalls := 0 } :=
  claim_C3_cached_secondary_fast_path _ 0 "cop" 100000 _ (by decide) rfl
    (by decide) rfl (by decide) (by decide)

/-- Claim C5: a stored record with a truthy primary token whose secondary
token is missing or expires within the refresh buffer makes a successful
getValidAccessToken perform exactly one exchange call and persist a record
with the primary token and created_at unchanged, the secondary token and
expiry set to the newly exchanged values (seconds scaled to ms), and
updated_at set to the current time. -/
theorem claim_C5_refresh_preserves_primary
    (c : GitHubCopilotOAuth2Credentials) (now : Int)
    (tok : GitHubCopilotTokenResponse)
    (ha : c.access_token ≠ "")
    (hstale : c.copilot_token = none ∨
      ∃ e, c.copilot_expires_at = some e ∧ e ≤ now + TOKEN_REFRESH_BUFFER_MS) :
    getValidAccessToken (some c) now (.success tok) =
      { result := some tok.token
        store := some { access_token := c.access_token
                        copilot_token := some tok.token
                        copilot_expires_at := some (tok.expires_at * 1000)
                        created_at := c.created_at
                        updated_at := now }
        exchangeCalls := 1 } := by
  rw [getValidAccessToken_stale c now _ ha hstale]
  rfl

theorem claim_C5_witness :
    getValidAccessToken
      (some { access_token := "gh", copilot_token := none,
              copilot_expires_at := none, created_at := 5, updated_at := 5 })
      100 (.success { token := "new", expires_at := 2000, refresh_in := 60 }) =
      { result := some "new",
        store := some { access_token := "gh", copilot_token := some "new",
                        copilot_expires_at := some 2000000, created_at := 5,
                        updated_at := 100 },
        exchangeCalls := 1 } :=
  claim_C5_refresh_preserves_primary _ 100 _ (by decide) (Or.inl rfl)

/-- Claim C4 counterexample: the source classifies a failed exchange as
credential-invalid by testing whether the thrown message contains the
substring 401, so an HTTP 403 failure whose response body happens to contain
the digits 401 also clears the stored credentials, where the claim requires
every non-401 failure to leave the stored record unmodified. -/
theorem claim_C4_counterexample :
    getValidAccessToken
      (some { access_token := "gh-token", copilot_token := none,
              copilot_expires_at := none, created_at := 0, updated_at := 0 })
      0 (.httpError 403 "Forbidden" "upstream said 401") =
      { result := none, store := none, exchangeCalls := 1 } ∧
    (none : Option GitHubCopilotOAuth2Credentials) ≠
      some { access_token := "gh-token", copilot_token := none,
             copilot_expires_at := none, created_at := 0, updated_at := 0 } := by
  constructor
  · decide
  · decide

/-- Claim C4 amended: when the exchange inside getValidAccessToken fails,
the call returns null after exactly one exchange call; the stored
credentials are cleared exactly when the thrown message contains the
substring 401 - which is the case for every HTTP 401 response - and are left
unchanged when the message does not contain it. -/
theorem claim_C4_message_based_classification
    (c : GitHubCopilotOAuth2Credentials) (now : Int) (status : Nat)
    (stx body : String)
    (ha : c.access_token ≠ "")
    (hstale : c.copilot_token = none ∨
      ∃ e, c.copilot_expires_at = some e ∧ e ≤ now + TOKEN_REFRESH_BUFFER_MS) :
    (getValidAccessToken (some c) now (.httpError status stx body)).result
        = none ∧
    (getValidAccessToken (some c) now (.httpError status stx body)).exchangeCalls
        = 1 ∧
    (strContains (copilotErrorMessage status stx body) "401" = true →
      (getValidAccessToken (some c) now (.httpError status stx body)).store
        = none) ∧
    (strContains (copilotErrorMessage status stx body) "401" = false →
      (getValidAccessToken (some c) now (.httpError status stx body)).store
        = some c) ∧
    (status = 401 →
      (getValidAccessToken (some c) now (.httpError status stx body)).store
        = none) := by
  rw [getValidAccessToken_stale c now _ ha hstale]
  simp only [refreshCopilotPath, getCopilotToken]
  by_cases h : strContains (copilotErrorMessage status stx body) "401" = true
  · refine ⟨by simp [h], by simp [h], fun _ => by simp [h], fun hf => ?_, fun _ => by simp [h]⟩
    rw [h] at hf
    exact absurd hf (by simp)
  · have hf : strContains (copilotErrorMessage status stx body) "401" = false :=
      Bool.eq_false_iff.mpr h
    refine ⟨by simp [hf], by simp [hf], fun ht => absurd ht h, fun _ => by simp [hf],
      fun h401 => ?_⟩
    subst h401
    exact absurd (copilotErrorMessage_401_contains stx body) h

theorem claim_C4_witness :
    (getValidAccessToken
      (some { access_token := "gh", copilot_token := none,
              copilot_expires_at := none, created_at := 0, updated_at := 0 })
      0 (.httpError 401 "Unauthorized" "")).result = none ∧
    (getValidAccessToken
      (some { access_token := "gh", copilot_token := none,
              copilot_expires_at := none, created_at := 0, updated_at := 0 })
      0 (.httpError 401 "Unauthorized" "")).store = none :=
  ⟨(claim_C4_message_based_classification _ 0 401 "Unauthorized" ""
      (by decide) (Or.inl rfl)).1,
   (claim_C4_message_based_classification _ 0 401 "Unauthorized" ""
      (by decide) (Or.inl rfl)).2.2.2.2 rfl⟩

/-- Claim C1 (refuting evaluation): the AuthCancel handler's whole body is
cleanup, which only detaches the listener and clears the deadline timer; the
polling loop consults no cancellation state at all, so its outcome is a
function of the poll results and the attempt budget alone and the Cancelled
member of the declared result type is never produced.  In the claim's
scenario (interval 5, expires_in 20, every poll Pending, AuthCancel emitted
between attempts 2 and 3) the loop therefore still performs all 4 poll HTTP
calls and ends in the TimedOut state, not Cancelled. -/
theorem claim_C1_cancel_signal_has_no_effect :
    (∀ s : FlowSession, cancelHandler s =
      { cancelListenerAttached := false, timeoutArmed := false }) ∧
    (∀ (polls : Nat → PollStep) (attempts remaining : Nat),
      (pollLoop polls attempts remaining).1 ≠ FlowResult.cancelled) ∧
    performOAuthPolling (fun _ => .result .pending) 5 20 =
      (FlowResult.timeout, 4) :=
  ⟨fun _ => rfl, pollLoop_ne_cancelled, by decide⟩

/-- Claim C2: with a positive interval the polling loop performs at most
floor(expires_in / interval) poll HTTP calls, and when every attempt is
Pending it performs exactly that many and ends in the TimedOut state. -/
theorem claim_C2_attempt_budget (polls : Nat → PollStep)
    (interval expires_in : Nat) (hi : 0 < interval) :
    (performOAuthPolling polls interval expires_in).2 ≤ expires_in / interval ∧
    ((∀ k, polls k = .result .pending) →
      performOAuthPolling polls interval expires_in =
        (FlowResult.timeout, expires_in / interval)) := by
  have _ := hi
  constructor
  · rw [performOAuthPolling_maxAttempts]
    exact pollLoop_calls_le polls 0 _
  · intro hp
    rw [performOAuthPolling_maxAttempts]
    exact pollLoop_all_pending polls hp 0 _

theorem claim_C2_witness :
    0 < 5 ∧
    ((performOAuthPolling (fun _ => .result .pending) 5 20).2 ≤ 20 / 5 ∧
      ((∀ k : Nat, (fun _ : Nat => PollStep.result PollOutcome.pending) k =
          PollStep.result PollOutcome.pending) →
        performOAuthPolling (fun _ => .result .pending) 5 20 =
          (FlowResult.timeout, 20 / 5))) :=
  ⟨by decide,
   claim_C2_attempt_budget (fun _ => .result .pending) 5 20 (by decide)⟩

/-- Claim C6: for every split offset of the scenario's byte sequence across
two reads (and whatever a further read would contain, since it is never
requested after the sentinel), the decoder yields exactly one generic chunk
with text hi and terminates on the [DONE] sentinel, for every parser that
decodes the frame payload the way JSON.parse does. -/
theorem claim_C6_stream_decode_split_invariant
    (parse : List Char → Option GitHubCopilotStreamResponse)
    (hp : parse ssePayload = some sseChunkHi)
    (k : Nat) (hk : k ≤ sseInput.length) (extra : List Char) :
    streamGenerator parse [sseInput.take k, sseInput.drop k, extra] [] [] =
      ([sseRespHi], true) := by
  have hsplit := collectPayloads_sseInput_split k hk
  have hdone : (collectPayloads [sseInput.take k, sseInput.drop k] []).2 = true := by
    rw [hsplit]
  have happ := collectPayloads_append_of_done
    [sseInput.take k, sseInput.drop k] [extra] [] hdone
  rw [streamGenerator_eq_collect]
  have hlist : [sseInput.take k, sseInput.drop k, extra] =
      [sseInput.take k, sseInput.drop k] ++ [extra] := rfl
  rw [hlist, happ, hsplit]
  simp only [List.filterMap, decodePayload, hp, Option.bind, List.nil_append]
  have hconv : convertStreamToGeminiResponse sseChunkHi = some sseRespHi := by
    decide
  rw [hconv]

theorem claim_C6_witness :
    sseParseFixture ssePayload = some sseChunkHi ∧
    10 ≤ sseInput.length ∧
    streamGenerator sseParseFixture
      [sseInput.take 10, sseInput.drop 10, "ignored trailing read".data] [] [] =
      ([sseRespHi], true) :=
  ⟨by decide, by decide,
   claim_C6_stream_decode_split_invariant sseParseFixture (by decide) 10
     (by decide) "ignored trailing read".data⟩

/-- Claim C7 counterexample: a request whose temperature is set to 0 (a set
knob) still gets the fallback default 0.7, because the source applies the
defaults with the JavaScript or-else operator, which also replaces the falsy
value 0; the claim requires the default to be applied exactly when the knob
is unset. -/
theorem claim_C7_counterexample :
    (buildRequestBody "gpt-4" []
      (some { maxOutputTokens := none, temperature := some 0, topP := none })
      false).temperature = 7 / 10 ∧ (7 / 10 : Rat) ≠ 0 := by
  constructor
  · simp [buildRequestBody, jsOrRat]
  · norm_num

/-- Claim C7 amended: the request body copies each sampling knob from the
request and applies the fixed defaults (max_tokens 4096, temperature 0.7,
top_p 1.0) exactly when the knob is unset or set to 0. -/
theorem claim_C7_sampling_defaults (modelName : String)
    (contents : List GeminiContent) (config : Option GenerationConfig)
    (stream : Bool) :
    ((config.bind (·.maxOutputTokens) = none ∨
        config.bind (·.maxOutputTokens) = some 0) →
      (buildRequestBody modelName contents config stream).max_tokens = 4096) ∧
    (∀ v, config.bind (·.maxOutputTokens) = some v → v ≠ 0 →
      (buildRequestBody modelName contents config stream).max_tokens = v) ∧
    ((config.bind (·.temperature) = none ∨
        config.bind (·.temperature) = some 0) →
      (buildRequestBody modelName contents config stream).temperature = 7 / 10) ∧
    (∀ v, config.bind (·.temperature) = some v → v ≠ 0 →
      (buildRequestBody modelName contents config stream).temperature = v) ∧
    ((config.bind (·.topP) = none ∨ config.bind (·.topP) = some 0) →
      (buildRequestBody modelName contents config stream).top_p = 1) ∧
    (∀ v, config.bind (·.topP) = some v → v ≠ 0 →
      (buildRequestBody modelName contents config stream).top_p = v) := by
  refine ⟨fun h => ?_, fun v hv hvz => ?_, fun h => ?_, fun v hv hvz => ?_,
    fun h => ?_, fun v hv hvz => ?_⟩
  · rcases h with h | h <;> simp [buildRequestBody, jsOrRat, h]
  · simp [buildRequestBody, jsOrRat, hv, hvz]
  · rcases h with h | h <;> simp [buildRequestBody, jsOrRat, h]
  · simp [buildRequestBody, jsOrRat, hv, hvz]
  · rcases h with h | h <;> simp [buildRequestBody, jsOrRat, h]
  · simp [buildRequestBody, jsOrRat, hv, hvz]

theorem claim_C7_witness :
    (buildRequestBody "gpt-4" []
      (some { maxOutputTokens := some 100, temperature := some 0, topP := none })
      false).max_tokens = 100 ∧
    (buildRequestBody "gpt-4" []
      (some { maxOutputTokens := some 100, temperature := some 0, topP := none })
      false).temperature = 7 / 10 ∧
    (buildRequestBody "gpt-4" []
      (some { maxOutputTokens := some 100, temperature := some 0, topP := none })
      false).top_p = 1 :=
  ⟨(claim_C7_sampling_defaults "gpt-4" []
      (some { maxOutputTokens := some 100, temperature := some 0, topP := none })
      false).2.1 100 rfl (by norm_num),
   (claim_C7_sampling_defaults "gpt-4" []
      (some { maxOutputTokens := some 100, temperature := some 0, topP := none })
      false).2.2.1 (Or.inr rfl),
   (claim_C7_sampling_defaults "gpt-4" []
      (some { maxOutputTokens := some 100, temperature := some 0, topP := none })
      false).2.2.2.2.1 (Or.inl rfl)⟩

/-- Claim C9 counterexample: a turn supplied as a bare string is pushed as a
user message with no blank check, so a whitespace-only string turn produces
a message whose content trims to empty, where the claim says the backend
never receives a message with blank content. -/
theorem claim_C9_counterexample :
    convertToOpenAIMessages [.strContent " "] =
      [{ role := "user", content := " " }] ∧
    jsTrim " " = "" := by
  constructor
  · decide
  · decide

/-- Claim C9 amended: every message produced from a role-and-parts turn has
non-blank content - a structured turn whose parts flatten to an empty or
whitespace-only string is omitted entirely; only turns supplied as bare
strings bypass the check. -/
theorem claim_C9_structured_turns_nonblank (contents : List GeminiContent)
    (hstruct : ∀ c ∈ contents, ∃ role parts, c = .turn role parts) :
    ∀ m ∈ convertToOpenAIMessages contents, jsTrim m.content ≠ "" := by
  induction contents with
  | nil => intro m hm; simp [convertToOpenAIMessages] at hm
  | cons c rest ih =>
    intro m hm
    obtain ⟨role, parts, rfl⟩ := hstruct c (by simp)
    simp only [convertToOpenAIMessages] at hm
    split at hm
    · rename_i hb
      rcases List.mem_append.mp hm with h | h
      · rcases List.mem_singleton.mp h with rfl
        exact hb
      · exact ih (fun x hx => hstruct x (by simp [hx])) m h
    · exact ih (fun x hx => hstruct x (by simp [hx])) m hm

theorem claim_C9_witness :
    jsTrim ({ role := "user", content := "hi" } : OpenAIMessage).content ≠ "" :=
  claim_C9_structured_turns_nonblank
    [.turn "user" [.objPart (some "hi") none]]
    (fun c hc => by
      simp at hc
      exact ⟨"user", [.objPart (some "hi") none], hc⟩)
    { role := "user", content := "hi" } (by decide)
